import Mathlib

/-!
Verification of the task-scheduler slice of this repository: the YAML task
store (`services/yaml_manager.py`), the token monitor
(`services/token_monitor.py`), the workspace manager
(`services/workspace_manager.py`), the execution adapter
(`flows/claude_executor.py`) and the orchestrator (`flows/task_processor.py`)
are shallowly embedded as pure Lean functions.  Filesystem and subprocess
effects are made explicit: the persisted task list, the workspace registry and
the set of existing workspace directories are passed as values, current
timestamps and freshly allocated scratch paths are parameters, and a
subprocess outcome is a record of its stdout, stderr and exit code.
-/

namespace TaskScheduler

/-! ## String helpers

Python string operations used by the scheduler, modelled character by
character: substring containment (Python's `in`), ASCII lower-casing
(`str.lower`; the phrases the scheduler scans for are all ASCII) and
zero-padded rendering (`f"{n:03d}"`). -/

/-- Does `hay` start with `needle`? (list-of-characters form). -/
def listStartsWith : List Char → List Char → Bool
  | [], _ => true
  | _ :: _, [] => false
  | n :: ns, h :: hs => n == h && listStartsWith ns hs

/-- Does `needle` occur contiguously somewhere in `hay`? -/
def listOccurs (needle : List Char) : List Char → Bool
  | [] => listStartsWith needle []
  | h :: hs => listStartsWith needle (h :: hs) || listOccurs needle hs

/-- Python's `needle in hay` on strings. -/
def strContains (hay needle : String) : Bool :=
  listOccurs needle.data hay.data

/-- Python's `s.startswith(p)`. -/
def strStartsWith (s p : String) : Bool :=
  listStartsWith p.data s.data

/-- Python's `str.lower`, restricted to ASCII (sufficient for the fixed
phrases the scheduler scans for). -/
def strLower (s : String) : String :=
  s.map Char.toLower

/-- Python's `f"{n:03d}"` for a natural number. -/
def pad3 (n : Nat) : String :=
  if n < 10 then "00" ++ toString n
  else if n < 100 then "0" ++ toString n
  else toString n

/-! ## Task store (`services/yaml_manager.py`)

`TaskConfig` mirrors the dataclass of the same name.  `created_at` is
declared `str = None` in the source and set by `__post_init__` when `None`
is passed, so it is modelled as `Option String` with the post-init step made
explicit in `taskFromDict`. -/

structure TaskConfig where
  id : String
  title : String
  description : String
  prompt_template : String := "default"
  status : String := "pending"
  created_at : Option String := none
  started_at : Option String := none
  completed_at : Option String := none
  attempts : Nat := 0
  max_attempts : Nat := 3
  last_error : Option String := none
  session_id : Option String := none
  workspace_path : Option String := none
  deriving Repr, DecidableEq

/-- The persisted record for one task: the dictionary `dataclasses.asdict`
produces, one key per `TaskConfig` field. -/
structure TaskDict where
  id : String
  title : String
  description : String
  prompt_template : String
  status : String
  created_at : Option String
  started_at : Option String
  completed_at : Option String
  attempts : Nat
  max_attempts : Nat
  last_error : Option String
  session_id : Option String
  workspace_path : Option String
  deriving Repr, DecidableEq

/-- `dataclasses.asdict` on a `TaskConfig`. -/
def asdict (t : TaskConfig) : TaskDict :=
  ⟨t.id, t.title, t.description, t.prompt_template, t.status, t.created_at,
   t.started_at, t.completed_at, t.attempts, t.max_attempts, t.last_error,
   t.session_id, t.workspace_path⟩

/-- `TaskConfig(**task_dict)` followed by `__post_init__`: a `None`
`created_at` is replaced by the current UTC timestamp `now`. -/
def taskFromDict (now : String) (d : TaskDict) : TaskConfig :=
  { id := d.id, title := d.title, description := d.description,
    prompt_template := d.prompt_template, status := d.status,
    created_at := match d.created_at with | none => some now | some c => some c,
    started_at := d.started_at, completed_at := d.completed_at,
    attempts := d.attempts, max_attempts := d.max_attempts,
    last_error := d.last_error, session_id := d.session_id,
    workspace_path := d.workspace_path }

/-- `YamlTaskManager.save_tasks`: the persisted `tasks` list becomes the list
of `asdict` images (the YAML layer is the storage backend and is modelled as
faithful). -/
def save_tasks (tasks : List TaskConfig) : List TaskDict :=
  tasks.map asdict

/-- `YamlTaskManager.load_tasks`: each persisted record is turned back into a
`TaskConfig` via the constructor (and hence `__post_init__`). -/
def load_tasks (now : String) (ds : List TaskDict) : List TaskConfig :=
  ds.map (taskFromDict now)

/-- `YamlTaskManager.get_task`: first task whose id matches. -/
def get_task (tasks : List TaskConfig) (task_id : String) : Option TaskConfig :=
  tasks.find? (fun t => t.id == task_id)

/-- The keyword arguments accepted by `YamlTaskManager.update_task`; `none`
means the key is not passed.  For the `Option`-valued task fields,
`some none` models passing `None` (clear the field). -/
structure TaskUpdates where
  status : Option String := none
  started_at : Option (Option String) := none
  completed_at : Option (Option String) := none
  attempts : Option Nat := none
  last_error : Option (Option String) := none
  session_id : Option (Option String) := none
  workspace_path : Option (Option String) := none

/-- `setattr(task, key, value)` for each provided key. -/
def applyUpdates (t : TaskConfig) (u : TaskUpdates) : TaskConfig :=
  { t with
    status := u.status.getD t.status,
    started_at := u.started_at.getD t.started_at,
    completed_at := u.completed_at.getD t.completed_at,
    attempts := u.attempts.getD t.attempts,
    last_error := u.last_error.getD t.last_error,
    session_id := u.session_id.getD t.session_id,
    workspace_path := u.workspace_path.getD t.workspace_path }

/-- `YamlTaskManager.update_task`: update the first task whose id matches and
report `true` (the store is then rewritten); an unknown id leaves the list
untouched, performs no write and reports `false`.  The returned list is the
store contents after the call. -/
def update_task : List TaskConfig → String → TaskUpdates → List TaskConfig × Bool
  | [], _, _ => ([], false)
  | t :: ts, task_id, u =>
    if t.id == task_id then (applyUpdates t u :: ts, true)
    else
      let r := update_task ts task_id u
      (t :: r.1, r.2)

/-- `YamlTaskManager.mark_task_running`.  The attempts value written is
`get_task(id).attempts + 1` (or `1` when the id is unknown); `session_id` is
only written when truthy (non-`None` and non-empty). -/
def mark_task_running (tasks : List TaskConfig) (task_id : String)
    (session_id : Option String) (now : String) : List TaskConfig × Bool :=
  let attempts := match get_task tasks task_id with
    | some t => t.attempts + 1
    | none => 1
  let u : TaskUpdates :=
    { status := some "running", started_at := some (some now),
      attempts := some attempts,
      session_id := match session_id with
        | some s => if s == "" then none else some (some s)
        | none => none }
  update_task tasks task_id u

/-- `YamlTaskManager.mark_task_completed`. -/
def mark_task_completed (tasks : List TaskConfig) (task_id : String)
    (now : String) : List TaskConfig × Bool :=
  update_task tasks task_id
    { status := some "completed", completed_at := some (some now),
      last_error := some none }

/-- `YamlTaskManager.mark_task_failed`. -/
def mark_task_failed (tasks : List TaskConfig) (task_id : String)
    (error : String) (now : String) : List TaskConfig × Bool :=
  update_task tasks task_id
    { status := some "failed", completed_at := some (some now),
      last_error := some (some error) }

/-- `YamlTaskManager.mark_task_paused`. -/
def mark_task_paused (tasks : List TaskConfig) (task_id : String)
    (reason : String) : List TaskConfig × Bool :=
  update_task tasks task_id
    { status := some "paused", last_error := some (some reason) }

/-- `YamlTaskManager.reset_task`: back to pending, clearing the four
timestamp/error/session fields (`attempts` is not touched). -/
def reset_task (tasks : List TaskConfig) (task_id : String) :
    List TaskConfig × Bool :=
  update_task tasks task_id
    { status := some "pending", started_at := some none,
      completed_at := some none, last_error := some none,
      session_id := some none }

/-- `YamlTaskManager.get_tasks_by_status`. -/
def get_tasks_by_status (tasks : List TaskConfig) (status : String) :
    List TaskConfig :=
  tasks.filter (fun t => t.status == status)

/-- The id-generation loop of `YamlTaskManager.add_task`.  The first
candidate is `task-{len+1:03d}`; on collision the loop body recomputes the
single value `task-{len+1+count_of_task_prefixed:03d}` on every iteration, so
if that second candidate also collides the `while` loop never terminates —
modelled as `none`. -/
def gen_task_id (tasks : List TaskConfig) : Option String :=
  let cand1 := "task-" ++ pad3 (tasks.length + 1)
  if tasks.any (fun t => t.id == cand1) then
    let cand2 := "task-" ++ pad3 (tasks.length + 1 +
      (tasks.filter (fun t => strStartsWith t.id "task-")).length)
    if tasks.any (fun t => t.id == cand2) then none
    else some cand2
  else some cand1

/-- `YamlTaskManager.add_task`: generate an id, build the new `TaskConfig`
(status defaults to pending, `created_at` set by `__post_init__`), append and
save.  `none` models the non-terminating id loop. -/
def add_task (tasks : List TaskConfig) (title description prompt_template : String)
    (now : String) : Option (List TaskConfig × TaskConfig) :=
  (gen_task_id tasks).map (fun task_id =>
    let new_task : TaskConfig :=
      { id := task_id, title := title, description := description,
        prompt_template := prompt_template, created_at := some now }
    (tasks ++ [new_task], new_task))

/-! ## Token monitor (`services/token_monitor.py`)

`check_token_status` shells out to the external tool; its result
(`TokenUsageInfo` or `None` on any failure) is the input of `can_run_tasks`
here.  Percentages are Python floats used only through comparison and
one-decimal rendering, modelled as exact rationals; `time_until_reset` is a
`timedelta`, modelled by its total seconds. -/

inductive SubscriptionPlan where
  | pro
  | max5
  | max20
  deriving Repr, DecidableEq

/-- `TokenUsageInfo` dataclass. -/
structure TokenUsageInfo where
  messages_used : Nat
  messages_limit : Nat
  percentage_used : ℚ
  time_until_reset : Option Nat
  plan : Option SubscriptionPlan
  raw_output : String
  timestamp : String
  deriving Repr, DecidableEq

/-- Python's `round` to an integer: round half to even. -/
def pyRound (x : ℚ) : ℤ :=
  let f := ⌊x⌋
  let r := x - f
  if r > 1 / 2 then f + 1
  else if r < 1 / 2 then f
  else if f % 2 = 0 then f else f + 1

/-- Python's `f"{x:.1%}"` for a nonnegative rational: `x * 100` rendered with
one decimal digit followed by `%`. -/
def formatPercent1 (x : ℚ) : String :=
  let t := pyRound (x * 1000)
  toString (t / 10) ++ "." ++ toString (t % 10) ++ "%"

/-- `TokenMonitor.can_run_tasks`, with the critical threshold and the outcome
of `check_token_status` as inputs. -/
def can_run_tasks (critical_threshold : ℚ) (status : Option TokenUsageInfo) :
    Bool × String :=
  match status with
  | none => (false, "Could not check Claude Code token status")
  | some st =>
    if st.percentage_used ≥ critical_threshold then
      let time_str := match st.time_until_reset with
        | some secs =>
          " (resets in " ++ toString (secs / 3600) ++ "h "
            ++ toString (secs % 3600 / 60) ++ "m)"
        | none => ""
      (false, "Token usage at " ++ formatPercent1 st.percentage_used
        ++ ", above critical threshold" ++ time_str)
    else
      (true, "Token usage within acceptable limits")

/-! ## Execution adapter (`flows/claude_executor.py`)

A workspace file snapshot (`_get_workspace_files`) is a Python dict from
relative path to mtime: an association list with no duplicate keys, mtimes
as integers (only their order matters).  The subprocess outcome handed back
by `_start_new_claude_session` / `_resume_claude_session` is the
`ClaudeResult` record. -/

/-- First value bound to a key in an association list (Python dict access on
a dict built in insertion order without duplicate keys). -/
def assocFind {α : Type} : List (String × α) → String → Option α
  | [], _ => none
  | (k, v) :: rest, key => if k == key then some v else assocFind rest key

/-- A snapshot of workspace files: relative path ↦ modification time. -/
abbrev FileSnapshot := List (String × ℤ)

/-- `ClaudeCodeExecutor._detect_file_changes`: files of the final snapshot
absent from the initial one, then files present in both whose modification
time strictly increased. -/
def detect_file_changes (initial_files final_files : FileSnapshot) :
    List String :=
  (final_files.filter (fun e => (assocFind initial_files e.1).isNone)).map Prod.fst
    ++ (initial_files.filter (fun e =>
          match assocFind final_files e.1 with
          | some m => e.2 < m
          | none => false)).map Prod.fst

/-- The fixed quota-exhaustion phrases of
`ClaudeCodeExecutor._check_token_limit_in_output`. -/
def limit_indicators : List String :=
  ["rate limit", "usage limit", "token limit", "quota exceeded",
   "limit reached", "too many requests", "capacity limit"]

/-- `ClaudeCodeExecutor._check_token_limit_in_output`: scan the lower-cased
concatenation of stdout and stderr for any of the phrases. -/
def check_token_limit_in_output (stdout stderr : String) : Bool :=
  let combined_output := strLower (stdout ++ stderr)
  limit_indicators.any (fun indicator => strContains combined_output indicator)

/-- The internal `ClaudeResult` dataclass: what one subprocess invocation
returned. -/
structure ClaudeResult where
  stdout : String
  stderr : String
  return_code : ℤ
  session_id : Option String := none
  error_message : Option String := none
  deriving Repr, DecidableEq

/-- `ClaudeExecutionResult` dataclass. -/
structure ClaudeExecutionResult where
  success : Bool
  stdout : String
  stderr : String
  return_code : ℤ
  execution_time : ℚ
  changed_files : List String
  workspace_path : String
  session_id : Option String := none
  error_message : Option String := none
  token_limit_hit : Bool := false
  deriving Repr, DecidableEq

/-- The result assembly of `ClaudeCodeExecutor.execute_task` on the normal
(no-exception) path: given the subprocess outcome and the two file
snapshots, compute changed files and the quota flag and set
`success = (return_code == 0 and not token_limit_hit)`. -/
def execute_task_result (r : ClaudeResult)
    (initial_files final_files : FileSnapshot)
    (workspace_path : String) (execution_time : ℚ) : ClaudeExecutionResult :=
  let changed_files := detect_file_changes initial_files final_files
  let token_limit_hit := check_token_limit_in_output r.stdout r.stderr
  { success := (r.return_code == 0) && !token_limit_hit,
    stdout := r.stdout, stderr := r.stderr, return_code := r.return_code,
    execution_time := execution_time, changed_files := changed_files,
    workspace_path := workspace_path, session_id := r.session_id,
    error_message := r.error_message, token_limit_hit := token_limit_hit }

/-! ## Workspace manager (`services/workspace_manager.py`)

`active_workspaces` is a Python dict task id ↦ `WorkspaceInfo`, modelled as
an insertion-ordered association list with unique keys.  The set of existing
workspace directories is carried as an explicit list of paths; `mkdtemp` is
modelled by passing in the fresh path it would allocate. -/

structure WorkspaceInfo where
  task_id : String
  workspace_path : String
  created_at : String
  is_temporary : Bool
  base_template : Option String := none
  deriving Repr, DecidableEq

/-- The in-memory workspace registry. -/
abbrev Registry := List (String × WorkspaceInfo)

/-- Python `del d[k]`: drop the (unique, but modelled as first) entry with
the given key. -/
def regErase : Registry → String → Registry
  | [], _ => []
  | (k, v) :: rest, key => if k == key then rest else (k, v) :: regErase rest key

/-- `WorkspaceManager.create_workspace`: if the id is already registered,
return its path unchanged; otherwise pick the directory (a fresh scratch dir
for temporary, the id-named dir under the base root for persistent),
register it and return it. -/
def create_workspace (reg : Registry) (task_id : String)
    (template_name : Option String) (temporary : Bool)
    (now fresh_path base_dir : String) : Registry × String :=
  match assocFind reg task_id with
  | some info => (reg, info.workspace_path)
  | none =>
    let workspace_path := if temporary then fresh_path
                          else base_dir ++ "/" ++ task_id
    let info : WorkspaceInfo :=
      { task_id := task_id, workspace_path := workspace_path,
        created_at := now, is_temporary := temporary,
        base_template := template_name }
    (reg ++ [(task_id, info)], workspace_path)

/-- `WorkspaceManager.cleanup_workspace` acting on the registry and the list
of existing directories: unknown id ⇒ already cleaned (`true`); persistent
and not forced ⇒ `false`, nothing touched; otherwise remove the directory
and the registry entry. -/
def cleanup_workspace (reg : Registry) (fs : List String) (task_id : String)
    (force : Bool) : Registry × List String × Bool :=
  match assocFind reg task_id with
  | none => (reg, fs, true)
  | some info =>
    if !info.is_temporary && !force then (reg, fs, false)
    else
      (regErase reg task_id,
       fs.filter (fun p => p != info.workspace_path), true)

/-- One iteration of the cleanup loop of
`cleanup_all_temporary_workspaces`: clean up one id and bump the counter on
success. -/
def cleanup_step (acc : Registry × List String × Nat) (task_id : String) :
    Registry × List String × Nat :=
  let r := cleanup_workspace acc.1 acc.2.1 task_id false
  (r.1, r.2.1, if r.2.2 then acc.2.2 + 1 else acc.2.2)

/-- `WorkspaceManager.cleanup_all_temporary_workspaces`: collect the ids of
the temporary entries, clean each up, count the successes. -/
def cleanup_all_temporary_workspaces (reg : Registry) (fs : List String) :
    Registry × List String × Nat :=
  let task_ids_to_cleanup := (reg.filter (fun e => e.2.is_temporary)).map Prod.fst
  task_ids_to_cleanup.foldl cleanup_step (reg, fs, 0)

/-! ## Orchestrator (`flows/task_processor.py`) -/

/-- The task-selection step `get_pending_tasks` of the flow: pending tasks,
then paused tasks with a truthy session id, truncated to `max_tasks`. -/
def flow_get_pending_tasks (tasks : List TaskConfig) (max_tasks : Nat) :
    List TaskConfig :=
  let pending_tasks := get_tasks_by_status tasks "pending"
  let resumable_tasks := (get_tasks_by_status tasks "paused").filter
    (fun t => match t.session_id with | some s => !(s == "") | none => false)
  (pending_tasks ++ resumable_tasks).take max_tasks

/-- `process_single_task` on the path where the quota check passes and the
execution comes back failed without a quota signal (`success` false,
`token_limit_hit` false): mark running (which increments the persisted
attempts), record the workspace path, then — testing the in-memory
`task_config.attempts` against `task_config.max_attempts` — either mark
failed or reset to pending for retry.  Returns the resulting store and the
`status` string of the returned result dictionary. -/
def process_single_task_failed_exec (tasks : List TaskConfig)
    (task_config : TaskConfig) (now workspace_path error_msg : String) :
    List TaskConfig × String :=
  let s1 := (mark_task_running tasks task_config.id none now).1
  let s2 := (update_task s1 task_config.id
    { workspace_path := some (some workspace_path) }).1
  if task_config.max_attempts ≤ task_config.attempts then
    ((mark_task_failed s2 task_config.id error_msg now).1, "failed")
  else
    ((reset_task s2 task_config.id).1, "pending")

/-! ## Concrete instances used by witnesses and counterexamples -/

/-- A sample task record with the given id, attempts count and status. -/
def exTask (id : String) (attempts : Nat) (status : String) : TaskConfig :=
  { id := id, title := "Write tests",
    description := "Add unit tests for the parser",
    created_at := some "2026-01-01T00:00:00+00:00",
    attempts := attempts, status := status }

/-- A store on which the id-generation loop of `add_task` never terminates:
both `task-003` (= `task-{len+1}`) and `task-005`
(= `task-{len+1+prefixed}`) are taken. -/
def exStoreLoop : List TaskConfig :=
  [exTask "task-003" 0 "pending", exTask "task-005" 0 "pending"]

/-- A store whose smallest unused numeric suffix is 1, yet `add_task` picks
`task-003`. -/
def exStoreGap : List TaskConfig := [exTask "task-002" 0 "pending"]

/-- A store holding a task on its third run: two previous attempts recorded,
`max_attempts` 3. -/
def exStoreRetry : List TaskConfig := [exTask "task-001" 2 "pending"]

/-- The orchestrator's failure path run on `exStoreRetry`: after
`mark_task_running` the persisted attempts count is 3 = `max_attempts`. -/
def exFailedRun : List TaskConfig × String :=
  process_single_task_failed_exec exStoreRetry (exTask "task-001" 2 "pending")
    "2026-01-02T00:00:00+00:00" "workspaces/task_task-001_x"
    "Claude Code execution failed"

/-- A parsed status snapshot at 96% usage with 4h 23m until reset. -/
def st96 : TokenUsageInfo :=
  { messages_used := 96, messages_limit := 100, percentage_used := 24 / 25,
    time_until_reset := some 15780, plan := some SubscriptionPlan.max5,
    raw_output := "96/100 messages, 4h 23m remaining",
    timestamp := "2026-01-01 00:00:00 UTC" }

/-- Example registry: two temporary workspaces around one persistent one. -/
def exReg : Registry :=
  [("task-001", { task_id := "task-001",
                  workspace_path := "workspaces/task_task-001_a1",
                  created_at := "T0", is_temporary := true }),
   ("task-002", { task_id := "task-002",
                  workspace_path := "workspaces/task-002",
                  created_at := "T0", is_temporary := false }),
   ("task-003", { task_id := "task-003",
                  workspace_path := "workspaces/task_task-003_b2",
                  created_at := "T0", is_temporary := true })]

/-- The directories existing under the workspace root for `exReg`. -/
def exFs : List String :=
  ["workspaces/task_task-001_a1", "workspaces/task-002",
   "workspaces/task_task-003_b2"]

/-- Example initial file snapshot of a workspace. -/
def exSnap : FileSnapshot := [("README.md", 100), ("src/a.py", 100)]

/-! ## Task-store lemmas -/

@[simp]
theorem applyUpdates_id (t : TaskConfig) (u : TaskUpdates) :
    (applyUpdates t u).id = t.id := rfl

/-- `update_task` on a present id: it reports success and the first task
with that id becomes its updated image. -/
theorem get_task_update_task_self (tasks : List TaskConfig) (task_id : String)
    (u : TaskUpdates) (t : TaskConfig) (h : get_task tasks task_id = some t) :
    (update_task tasks task_id u).2 = true ∧
    get_task (update_task tasks task_id u).1 task_id =
      some (applyUpdates t u) := by
  induction tasks with
  | nil => simp [get_task] at h
  | cons t0 ts ih =>
    by_cases h0 : (t0.id == task_id) = true
    · have ht0 : t0 = t := by
        simpa [get_task, List.find?_cons, h0] using h
      subst ht0
      refine ⟨by simp [update_task, h0], ?_⟩
      simp [update_task, h0, get_task, List.find?_cons]
    · have h' : get_task ts task_id = some t := by
        simpa [get_task, List.find?_cons, h0] using h
      obtain ⟨ih1, ih2⟩ := ih h'
      refine ⟨by simp [update_task, h0, ih1], ?_⟩
      simpa [update_task, h0, get_task, List.find?_cons] using ih2

/-- `update_task` on an absent id: the store is unchanged and no write is
reported. -/
theorem update_task_unknown (tasks : List TaskConfig) (task_id : String)
    (u : TaskUpdates) (h : ∀ t ∈ tasks, (t.id == task_id) = false) :
    update_task tasks task_id u = (tasks, false) := by
  induction tasks with
  | nil => rfl
  | cons t0 ts ih =>
    have h0 := h t0 (by simp)
    have ih' := ih (fun t ht => h t (by simp [ht]))
    simp [update_task, h0, ih']

/-- Claim C5: for every task id present in the store, regardless of the
task's prior status, `reset_task` reports success and leaves the task with
status `pending` and `started_at`, `completed_at`, `last_error` and
`session_id` all cleared. -/
theorem reset_task_spec (tasks : List TaskConfig) (task_id : String)
    (t : TaskConfig) (h : get_task tasks task_id = some t) :
    (reset_task tasks task_id).2 = true ∧
    ∃ t', get_task (reset_task tasks task_id).1 task_id = some t' ∧
      t'.status = "pending" ∧ t'.started_at = none ∧
      t'.completed_at = none ∧ t'.last_error = none ∧
      t'.session_id = none := by
  obtain ⟨h1, h2⟩ := get_task_update_task_self tasks task_id
    { status := some "pending", started_at := some none,
      completed_at := some none, last_error := some none,
      session_id := some none } t h
  exact ⟨h1, _, h2, rfl, rfl, rfl, rfl, rfl⟩

/-- Witness for C5 at a concrete store: the task is present, and after
`reset_task` it is pending with the four fields cleared. -/
theorem reset_task_spec_witness :
    get_task exStoreRetry "task-001" = some (exTask "task-001" 2 "pending") ∧
    ((reset_task exStoreRetry "task-001").2 = true ∧
     ∃ t', get_task (reset_task exStoreRetry "task-001").1 "task-001" = some t' ∧
       t'.status = "pending" ∧ t'.started_at = none ∧
       t'.completed_at = none ∧ t'.last_error = none ∧
       t'.session_id = none) :=
  ⟨by decide, reset_task_spec exStoreRetry "task-001"
    (exTask "task-001" 2 "pending") (by decide)⟩

/-- Claim C10: for a task id absent from the store, `update_task` returns
`false` and the persisted store is unchanged (no write occurs), and so do
all the status-transition helpers built on it. -/
theorem update_task_unknown_id_spec (tasks : List TaskConfig)
    (task_id : String) (u : TaskUpdates) (sid : Option String)
    (now error reason : String) (h : ∀ t ∈ tasks, t.id ≠ task_id) :
    update_task tasks task_id u = (tasks, false) ∧
    mark_task_running tasks task_id sid now = (tasks, false) ∧
    mark_task_completed tasks task_id now = (tasks, false) ∧
    mark_task_failed tasks task_id error now = (tasks, false) ∧
    mark_task_paused tasks task_id reason = (tasks, false) ∧
    reset_task tasks task_id = (tasks, false) := by
  have h' : ∀ t ∈ tasks, (t.id == task_id) = false := by
    intro t ht
    simpa using h t ht
  exact ⟨update_task_unknown _ _ _ h', update_task_unknown _ _ _ h',
    update_task_unknown _ _ _ h', update_task_unknown _ _ _ h',
    update_task_unknown _ _ _ h', update_task_unknown _ _ _ h'⟩

/-- Witness for C10: on a store without `task-404`, `update_task` and every
transition helper return `false` and leave the store unchanged. -/
theorem update_task_unknown_id_spec_witness :
    (∀ t ∈ exStoreGap, t.id ≠ "task-404") ∧
    (update_task exStoreGap "task-404" { status := some "running" } =
       (exStoreGap, false) ∧
     mark_task_running exStoreGap "task-404" none "T1" = (exStoreGap, false) ∧
     mark_task_completed exStoreGap "task-404" "T1" = (exStoreGap, false) ∧
     mark_task_failed exStoreGap "task-404" "boom" "T1" = (exStoreGap, false) ∧
     mark_task_paused exStoreGap "task-404" "limit" = (exStoreGap, false) ∧
     reset_task exStoreGap "task-404" = (exStoreGap, false)) :=
  ⟨by decide, update_task_unknown_id_spec exStoreGap "task-404"
    { status := some "running" } none "T1" "boom" "limit" (by decide)⟩

/-! ## `add_task` (C2) -/

/-- When the id-generation loop of `add_task` terminates, the id it returns
collides with no existing id. -/
theorem gen_task_id_fresh (tasks : List TaskConfig) (task_id : String)
    (h : gen_task_id tasks = some task_id) :
    ∀ t ∈ tasks, t.id ≠ task_id := by
  have hany : tasks.any (fun t => t.id == task_id) = false := by
    unfold gen_task_id at h
    by_cases h1 : tasks.any
        (fun t => t.id == "task-" ++ pad3 (tasks.length + 1)) = true
    · rw [if_pos h1] at h
      by_cases h2 : tasks.any (fun t => t.id == "task-" ++ pad3 (tasks.length
          + 1 + (tasks.filter (fun t => strStartsWith t.id "task-")).length)) = true
      · rw [if_pos h2] at h
        exact absurd h (by simp)
      · rw [if_neg h2] at h
        obtain rfl : _ = task_id := Option.some.inj h
        exact Bool.eq_false_iff.2 h2
    · rw [if_neg h1] at h
      obtain rfl : _ = task_id := Option.some.inj h
      exact Bool.eq_false_iff.2 h1
  intro t ht heq
  have := List.any_eq_false.1 hany t ht
  simp [heq] at this

/-- Claim C2 (amended): whenever the id-generation loop of `add_task`
terminates with some id, `add_task` appends a single new task carrying that
id with status `pending`, and the id is distinct from every id already in
the store.  (Termination is not guaranteed, and the id chosen is not in
general the smallest unused numeric suffix.) -/
theorem add_task_amended (tasks : List TaskConfig)
    (title description prompt_template now task_id : String)
    (h : gen_task_id tasks = some task_id) :
    ∃ nt : TaskConfig,
      add_task tasks title description prompt_template now =
        some (tasks ++ [nt], nt) ∧
      nt.id = task_id ∧ nt.status = "pending" ∧
      ∀ t ∈ tasks, t.id ≠ nt.id := by
  refine ⟨{ id := task_id, title := title, description := description,
            prompt_template := prompt_template, created_at := some now },
    ?_, rfl, rfl, gen_task_id_fresh tasks task_id h⟩
  simp [add_task, h]

/-- Witness for C2 (amended) on a concrete store: the generated id is
`task-003`, fresh with respect to the store. -/
theorem add_task_amended_witness :
    gen_task_id exStoreGap = some "task-003" ∧
    ∃ nt : TaskConfig,
      add_task exStoreGap "Write tests" "Add unit tests" "default" "T1" =
        some (exStoreGap ++ [nt], nt) ∧
      nt.id = "task-003" ∧ nt.status = "pending" ∧
      ∀ t ∈ exStoreGap, t.id ≠ nt.id :=
  ⟨by decide, add_task_amended exStoreGap "Write tests" "Add unit tests"
    "default" "T1" "task-003" (by decide)⟩

/-- Claim C2 counterexample: on the store with ids `task-003` and
`task-005`, both candidates of the id-generation `while` loop collide and
the loop body recomputes the same second candidate forever, so `add_task`
does not terminate (modelled as `none`); and on the store with the single id
`task-002`, the generated id is `task-003` even though the numeric suffix 1
is unused — the id is not the next unused numeric suffix. -/
theorem add_task_counterexample :
    gen_task_id exStoreLoop = none ∧
    (gen_task_id exStoreGap = some "task-003" ∧
     exStoreGap.all (fun t => !(t.id == "task-001")) = true) := by
  refine ⟨by decide, by decide, by decide⟩

/-! ## Orchestrator failure path (C1) -/

/-- A task whose status is `failed` is never selected by the flow's
task-selection step (which takes only pending tasks and resumable paused
tasks). -/
theorem failed_not_selected (tasks : List TaskConfig) (max_tasks : Nat)
    (t : TaskConfig) (hs : t.status = "failed") :
    t ∉ flow_get_pending_tasks tasks max_tasks := by
  intro hmem
  have hmem' := List.take_subset _ _ hmem
  rcases List.mem_append.1 hmem' with hp | hp
  · have := (List.mem_filter.1 hp).2
    simp [hs] at this
  · have hpau := (List.mem_filter.1 hp).1
    have := (List.mem_filter.1 hpau).2
    simp [hs] at this

/-- Claim C1 (amended): on the orchestrator's failed-execution path (no
quota signal), the task's persisted attempts count becomes its previous
value plus one, and the task transitions to `failed` exactly when the
selected task's attempts count at selection time had already reached
`max_attempts` — that is, when the persisted count reaches
`max_attempts + 1`; otherwise it transitions back to `pending` for retry.
A `failed` task is never selected again by the flow. -/
theorem process_failed_amended (tasks : List TaskConfig)
    (task_config : TaskConfig) (now workspace_path error_msg : String)
    (max_tasks : Nat)
    (h : get_task tasks task_config.id = some task_config) :
    (∃ t', get_task (process_single_task_failed_exec tasks task_config now
         workspace_path error_msg).1 task_config.id = some t' ∧
       t'.attempts = task_config.attempts + 1 ∧
       t'.status = (if task_config.max_attempts ≤ task_config.attempts
         then "failed" else "pending")) ∧
    (process_single_task_failed_exec tasks task_config now workspace_path
        error_msg).2 =
      (if task_config.max_attempts ≤ task_config.attempts
        then "failed" else "pending") ∧
    (∀ t, t.status = "failed" → t ∉ flow_get_pending_tasks tasks max_tasks) := by
  have hrun : mark_task_running tasks task_config.id none now =
      update_task tasks task_config.id
        { status := some "running", started_at := some (some now),
          attempts := some (task_config.attempts + 1), session_id := none } := by
    simp [mark_task_running, h]
  obtain ⟨_, h1⟩ := get_task_update_task_self tasks task_config.id
    { status := some "running", started_at := some (some now),
      attempts := some (task_config.attempts + 1), session_id := none }
    task_config h
  set t1 := applyUpdates task_config
    { status := some "running", started_at := some (some now),
      attempts := some (task_config.attempts + 1), session_id := none }
    with ht1
  obtain ⟨_, h2⟩ := get_task_update_task_self
    (update_task tasks task_config.id
      { status := some "running", started_at := some (some now),
        attempts := some (task_config.attempts + 1), session_id := none }).1
    task_config.id { workspace_path := some (some workspace_path) } t1 h1
  set t2 := applyUpdates t1 { workspace_path := some (some workspace_path) }
    with ht2
  by_cases hmax : task_config.max_attempts ≤ task_config.attempts
  · obtain ⟨_, h3⟩ := get_task_update_task_self _ task_config.id
      { status := some "failed", completed_at := some (some now),
        last_error := some (some error_msg) } t2 h2
    refine ⟨⟨(applyUpdates t2
      { status := some "failed", completed_at := some (some now),
        last_error := some (some error_msg) }), ?_, ?_, ?_⟩, ?_,
      fun t ht => failed_not_selected tasks max_tasks t ht⟩
    · simpa [process_single_task_failed_exec, hmax, mark_task_failed,
        reset_task, hrun] using h3
    · simp [ht2, ht1, applyUpdates]
    · simp [hmax, ht2, ht1, applyUpdates]
    · simp [process_single_task_failed_exec, hmax]
  · obtain ⟨_, h3⟩ := get_task_update_task_self _ task_config.id
      { status := some "pending", started_at := some none,
        completed_at := some none, last_error := some none,
        session_id := some none } t2 h2
    refine ⟨⟨(applyUpdates t2
      { status := some "pending", started_at := some none,
        completed_at := some none, last_error := some none,
        session_id := some none }), ?_, ?_, ?_⟩, ?_,
      fun t ht => failed_not_selected tasks max_tasks t ht⟩
    · simpa [process_single_task_failed_exec, hmax, mark_task_failed,
        reset_task, hrun] using h3
    · simp [ht2, ht1, applyUpdates]
    · simp [hmax, ht2, ht1, applyUpdates]
    · simp [process_single_task_failed_exec, hmax]

/-- Witness for C1 (amended): a first-attempt task (attempts 0, max 3) whose
execution fails is reset to `pending` with persisted attempts 1. -/
theorem process_failed_amended_witness :
    get_task [exTask "task-010" 0 "pending"] "task-010" =
      some (exTask "task-010" 0 "pending") ∧
    ((∃ t', get_task (process_single_task_failed_exec
          [exTask "task-010" 0 "pending"] (exTask "task-010" 0 "pending")
          "T1" "/ws" "boom").1 "task-010" = some t' ∧
        t'.attempts = 0 + 1 ∧
        t'.status = (if (exTask "task-010" 0 "pending").max_attempts ≤
            (exTask "task-010" 0 "pending").attempts
          then "failed" else "pending")) ∧
      (process_single_task_failed_exec [exTask "task-010" 0 "pending"]
          (exTask "task-010" 0 "pending") "T1" "/ws" "boom").2 =
        (if (exTask "task-010" 0 "pending").max_attempts ≤
            (exTask "task-010" 0 "pending").attempts
          then "failed" else "pending") ∧
      (∀ t, t.status = "failed" →
        t ∉ flow_get_pending_tasks [exTask "task-010" 0 "pending"] 5)) :=
  ⟨by decide, process_failed_amended [exTask "task-010" 0 "pending"]
    (exTask "task-010" 0 "pending") "T1" "/ws" "boom" 5 (by decide)⟩

/-- Claim C1 counterexample: the task of `exStoreRetry` starts its third run
with `attempts = 2` and `max_attempts = 3`; `mark_task_running` raises the
persisted attempts count to 3 = `max_attempts`, the execution fails without
a quota signal, and yet the orchestrator resets the task to `pending` —
because the retry test compares the stale in-memory attempts value (2)
against `max_attempts`, not the persisted one. -/
theorem process_failed_counterexample :
    exFailedRun.2 = "pending" ∧
    (get_task exFailedRun.1 "task-001").map
      (fun t => (t.attempts, t.max_attempts, t.status)) =
      some (3, 3, "pending") := by
  exact ⟨rfl, rfl⟩

/-! ## Execution adapter result flags (C3) -/

/-- Claim C3: on the normal path, `success` holds iff the exit code is 0 and
no quota-exhaustion phrase occurs, case-insensitively, in the concatenation
of stdout and stderr; `token_limit_hit` is set exactly when such a phrase
occurs. -/
theorem execute_task_result_spec (r : ClaudeResult)
    (initial_files final_files : FileSnapshot)
    (workspace_path : String) (execution_time : ℚ) :
    ((execute_task_result r initial_files final_files workspace_path
        execution_time).success = true ↔
      (r.return_code = 0 ∧ ∀ phrase ∈ limit_indicators,
        strContains (strLower (r.stdout ++ r.stderr)) phrase = false)) ∧
    ((execute_task_result r initial_files final_files workspace_path
        execution_time).token_limit_hit = true ↔
      ∃ phrase ∈ limit_indicators,
        strContains (strLower (r.stdout ++ r.stderr)) phrase = true) := by
  constructor
  · show ((r.return_code == 0)
        && !(check_token_limit_in_output r.stdout r.stderr)) = true ↔ _
    unfold check_token_limit_in_output
    simp only [Bool.and_eq_true, beq_iff_eq, Bool.not_eq_true',
      List.any_eq_false, Bool.not_eq_true]
  · show check_token_limit_in_output r.stdout r.stderr = true ↔ _
    unfold check_token_limit_in_output
    rw [List.any_eq_true]

/-! ## Token monitor (C4) -/

theorem listStartsWith_append (n xs ys : List Char)
    (h : listStartsWith n xs = true) : listStartsWith n (xs ++ ys) = true := by
  induction n generalizing xs with
  | nil => simp [listStartsWith]
  | cons c cs ih =>
    cases xs with
    | nil => simp [listStartsWith] at h
    | cons x xs' =>
      simp only [listStartsWith, Bool.and_eq_true] at h
      simp only [List.cons_append, listStartsWith, Bool.and_eq_true]
      exact ⟨h.1, ih xs' h.2⟩

theorem listOccurs_nil_needle (hay : List Char) :
    listOccurs [] hay = true := by
  induction hay with
  | nil => rfl
  | cons h hs ih => simp [listOccurs, listStartsWith]

theorem listOccurs_append_left (n hay suf : List Char)
    (h : listOccurs n hay = true) : listOccurs n (hay ++ suf) = true := by
  induction hay with
  | nil =>
    cases n with
    | nil => exact listOccurs_nil_needle suf
    | cons c cs => simp [listOccurs, listStartsWith] at h
  | cons x xs ih =>
    simp only [listOccurs, Bool.or_eq_true] at h
    simp only [List.cons_append, listOccurs, Bool.or_eq_true]
    rcases h with h | h
    · exact Or.inl (listStartsWith_append _ _ _ h)
    · exact Or.inr (ih h)

theorem listOccurs_append_right (n pre hay : List Char)
    (h : listOccurs n hay = true) : listOccurs n (pre ++ hay) = true := by
  induction pre with
  | nil => simpa using h
  | cons x xs ih =>
    simp only [List.cons_append, listOccurs, Bool.or_eq_true]
    exact Or.inr ih

/-- A needle occurring in the middle part of a three-part concatenation
occurs in the whole string. -/
theorem strContains_of_middle (a b c needle : String)
    (h : strContains b needle = true) :
    strContains (a ++ b ++ c) needle = true := by
  unfold strContains at h ⊢
  rw [String.append_assoc, String.data_append, String.data_append]
  exact listOccurs_append_right _ _ _ (listOccurs_append_left _ _ _ h)

/-- Claim C4: `can_run_tasks` refuses when the status check is unavailable;
at or above the critical threshold it refuses with a reason mentioning the
critical threshold; strictly below the threshold it allows. -/
theorem can_run_tasks_spec (critical_threshold : ℚ) (st : TokenUsageInfo) :
    (can_run_tasks critical_threshold none).1 = false ∧
    (critical_threshold ≤ st.percentage_used →
      (can_run_tasks critical_threshold (some st)).1 = false ∧
      strContains (can_run_tasks critical_threshold (some st)).2
        "critical threshold" = true) ∧
    (st.percentage_used < critical_threshold →
      (can_run_tasks critical_threshold (some st)).1 = true) := by
  refine ⟨rfl, fun hge => ?_, fun hlt => ?_⟩
  · have hcond : st.percentage_used ≥ critical_threshold := hge
    constructor
    · simp [can_run_tasks, hcond]
    · have hmid : strContains ", above critical threshold"
          "critical threshold" = true := by decide
      rcases hreset : st.time_until_reset with _ | secs
      · simpa [can_run_tasks, hcond, hreset, String.append_empty] using
          strContains_of_middle ("Token usage at "
            ++ formatPercent1 st.percentage_used)
            ", above critical threshold" "" "critical threshold" hmid
      · simpa [can_run_tasks, hcond, hreset] using
          strContains_of_middle ("Token usage at "
            ++ formatPercent1 st.percentage_used)
            ", above critical threshold"
            (" (resets in " ++ toString (secs / 3600) ++ "h "
              ++ toString (secs % 3600 / 60) ++ "m)")
            "critical threshold" hmid
  · have hcond : ¬ st.percentage_used ≥ critical_threshold := not_le.2 hlt
    simp [can_run_tasks, hcond]

/-- Witness for C4 at simulated usage 0.96 against the default critical
threshold 0.95: refusal, with the reason mentioning the critical
threshold. -/
theorem can_run_tasks_spec_witness :
    ((19 : ℚ) / 20 ≤ st96.percentage_used) ∧
    ((can_run_tasks (19 / 20) (some st96)).1 = false ∧
     strContains (can_run_tasks (19 / 20) (some st96)).2
       "critical threshold" = true) :=
  ⟨by norm_num [st96], (can_run_tasks_spec (19 / 20) st96).2.1
    (by norm_num [st96])⟩

/-! ## Task-store round trip (C6) -/

/-- Claim C6: saving the task store and loading it back returns a list of
tasks equal, field by field, to the list saved.  The hypothesis reflects the
invariant `__post_init__` establishes at construction: every live
`TaskConfig` carries a non-`None` `created_at`. -/
theorem save_load_round_trip (tasks : List TaskConfig) (now : String)
    (h : ∀ t ∈ tasks, t.created_at ≠ none) :
    load_tasks now (save_tasks tasks) = tasks := by
  induction tasks with
  | nil => rfl
  | cons t ts ih =>
    have ht : t.created_at ≠ none := h t (by simp)
    have hts := ih (fun t' ht' => h t' (by simp [ht']))
    have hhead : taskFromDict now (asdict t) = t := by
      rcases hc : t.created_at with _ | c
      · exact absurd hc ht
      · simp only [taskFromDict, asdict, hc]
        rw [← hc]
    simpa [load_tasks, save_tasks, hhead] using hts

/-- Witness for C6 on a concrete store. -/
theorem save_load_round_trip_witness :
    (∀ t ∈ exStoreLoop, t.created_at ≠ none) ∧
    load_tasks "T9" (save_tasks exStoreLoop) = exStoreLoop :=
  ⟨by decide, save_load_round_trip exStoreLoop "T9" (by decide)⟩

/-! ## Workspace creation idempotence (C7) -/

/-- Looking up a key just appended to a registry that did not contain it. -/
theorem assocFind_append_single {α : Type} (l : List (String × α))
    (k : String) (v : α) (h : assocFind l k = none) :
    assocFind (l ++ [(k, v)]) k = some v := by
  induction l with
  | nil => simp [assocFind]
  | cons e es ih =>
    by_cases he : (e.1 == k) = true
    · simp [assocFind, he] at h
    · have h' : assocFind es k = none := by
        simpa [assocFind, he] using h
      simpa [assocFind, he] using ih h'

/-- Claim C7: calling `create_workspace` twice with the same task id returns
the same path both times and registers nothing new the second time: the
second call returns the first call's registry and path unchanged, for any
arguments of the second call. -/
theorem create_workspace_idempotent (reg : Registry) (task_id : String)
    (tn tn' : Option String) (temp temp' : Bool)
    (now now' fp fp' base base' : String) :
    create_workspace (create_workspace reg task_id tn temp now fp base).1
        task_id tn' temp' now' fp' base' =
      create_workspace reg task_id tn temp now fp base := by
  rcases hfind : assocFind reg task_id with _ | info
  · have hreg : (create_workspace reg task_id tn temp now fp base).1 =
        reg ++ [(task_id,
          { task_id := task_id,
            workspace_path := if temp then fp else base ++ "/" ++ task_id,
            created_at := now, is_temporary := temp,
            base_template := tn })] := by
      simp [create_workspace, hfind]
    have hfind2 := assocFind_append_single reg task_id
      ({ task_id := task_id,
         workspace_path := if temp then fp else base ++ "/" ++ task_id,
         created_at := now, is_temporary := temp,
         base_template := tn } : WorkspaceInfo) hfind
    simp [create_workspace, hfind, hreg, hfind2]
  · simp [create_workspace, hfind]

/-! ## Association-list lemmas shared by the registry and snapshot proofs -/

theorem assocFind_eq_none {α : Type} (l : List (String × α)) (k : String)
    (h : ∀ e ∈ l, e.1 ≠ k) : assocFind l k = none := by
  induction l with
  | nil => rfl
  | cons e es ih =>
    have he : (e.1 == k) = false := by
      simpa using h e (by simp)
    simpa [assocFind, he] using ih (fun e' he' => h e' (by simp [he']))

theorem assocFind_of_mem {α : Type} (l : List (String × α)) (k : String)
    (v : α) (hnd : (l.map Prod.fst).Nodup) (hm : (k, v) ∈ l) :
    assocFind l k = some v := by
  induction l with
  | nil => simp at hm
  | cons e es ih =>
    rw [List.map_cons] at hnd
    obtain ⟨hhead, htail⟩ := List.nodup_cons.1 hnd
    rcases List.mem_cons.1 hm with heq | hmem
    · rw [← heq]
      simp [assocFind]
    · have hk : e.1 ≠ k := by
        intro hkk
        have hmm : k ∈ es.map Prod.fst := List.mem_map.2 ⟨(k, v), hmem, rfl⟩
        rw [← hkk] at hmm
        exact hhead hmm
      have he : (e.1 == k) = false := by simpa using hk
      simpa [assocFind, he] using ih htail hmem

theorem mem_of_assocFind {α : Type} (l : List (String × α)) (k : String)
    (v : α) (h : assocFind l k = some v) : (k, v) ∈ l := by
  induction l with
  | nil => simp [assocFind] at h
  | cons e es ih =>
    by_cases he : (e.1 == k) = true
    · have hv : e.2 = v := by
        simpa [assocFind, he] using h
      have hk : e.1 = k := by simpa using he
      have : e = (k, v) := by
        rw [← hk, ← hv]
      simp [← this]
    · have h' : assocFind es k = some v := by
        simpa [assocFind, he] using h
      exact List.mem_cons_of_mem _ (ih h')

theorem assocFind_append_of_none {α : Type} (l l' : List (String × α))
    (k : String) (h : assocFind l k = none) :
    assocFind (l ++ l') k = assocFind l' k := by
  induction l with
  | nil => rfl
  | cons e es ih =>
    by_cases he : (e.1 == k) = true
    · simp [assocFind, he] at h
    · have h' : assocFind es k = none := by simpa [assocFind, he] using h
      simpa [assocFind, he] using ih h'

theorem assocFind_append_of_some {α : Type} (l l' : List (String × α))
    (k : String) (v : α) (h : assocFind l k = some v) :
    assocFind (l ++ l') k = some v := by
  induction l with
  | nil => simp [assocFind] at h
  | cons e es ih =>
    by_cases he : (e.1 == k) = true
    · have hv : e.2 = v := by simpa [assocFind, he] using h
      simp [assocFind, he, hv]
    · have h' : assocFind es k = some v := by simpa [assocFind, he] using h
      simpa [assocFind, he] using ih h'

theorem regErase_sublist (reg : Registry) (k : String) :
    (regErase reg k).Sublist reg := by
  induction reg with
  | nil => simp [regErase]
  | cons e es ih =>
    simp only [regErase]
    by_cases he : (e.1 == k) = true
    · rw [if_pos he]
      exact List.sublist_cons_self _ _
    · rw [if_neg he]
      exact ih.cons₂ e

theorem assocFind_regErase_ne (reg : Registry) (k k' : String)
    (h : k' ≠ k) : assocFind (regErase reg k) k' = assocFind reg k' := by
  induction reg with
  | nil => rfl
  | cons e es ih =>
    simp only [regErase]
    by_cases he : (e.1 == k) = true
    · have hk : e.1 = k := by simpa using he
      have he' : (e.1 == k') = false := by
        rw [hk]
        exact beq_eq_false_iff_ne.2 (Ne.symm h)
      rw [if_pos he]
      simp [assocFind, he']
    · rw [if_neg he]
      by_cases he' : (e.1 == k') = true
      · simp [assocFind, he']
      · simpa [assocFind, he'] using ih

theorem regErase_eq_filter (reg : Registry) (k : String)
    (hnd : (reg.map Prod.fst).Nodup) :
    regErase reg k = reg.filter (fun e => !(e.1 == k)) := by
  induction reg with
  | nil => rfl
  | cons e es ih =>
    rw [List.map_cons] at hnd
    obtain ⟨hhead, htail⟩ := List.nodup_cons.1 hnd
    simp only [regErase]
    by_cases he : (e.1 == k) = true
    · have hk : e.1 = k := by simpa using he
      have hes : es.filter (fun e => !(e.1 == k)) = es := by
        rw [List.filter_eq_self]
        intro e' he'
        have hne : e'.1 ≠ k := by
          intro heq
          have hmm : e'.1 ∈ es.map Prod.fst := List.mem_map.2 ⟨e', he', rfl⟩
          rw [heq, ← hk] at hmm
          exact hhead hmm
        simpa using hne
      rw [if_pos he, List.filter_cons]
      simp [he, hes]
    · rw [if_neg he, List.filter_cons]
      simp [he, ih htail]

/-! ## Workspace cleanup (C8) -/

/-- One pass of the cleanup loop over a list of ids that are all registered
and temporary: the registry loses exactly those entries, the filesystem
loses exactly their directories, and the counter grows by the number of
ids. -/
theorem cleanup_fold_spec (ids : List String) :
    ∀ (r : Registry) (fs : List String) (n : Nat),
    (r.map Prod.fst).Nodup → ids.Nodup →
    (∀ tid ∈ ids, ∃ info, assocFind r tid = some info ∧
      info.is_temporary = true) →
    ids.foldl cleanup_step (r, fs, n) =
      (r.filter (fun e => !(ids.contains e.1)),
       fs.filter (fun p => !((ids.filterMap
         (fun tid => (assocFind r tid).map
           (fun i => i.workspace_path))).contains p)),
       n + ids.length) := by
  induction ids with
  | nil =>
    intro r fs n _ _ _
    simp
  | cons tid rest ih =>
    intro r fs n hkeys hnd hin
    obtain ⟨info, hfind, htemp⟩ := hin tid (by simp)
    obtain ⟨hhead, htail⟩ := List.nodup_cons.1 hnd
    have hstep : cleanup_step (r, fs, n) tid =
        (regErase r tid, fs.filter (fun p => p != info.workspace_path),
         n + 1) := by
      simp [cleanup_step, cleanup_workspace, hfind, htemp]
    have hkeys' : ((regErase r tid).map Prod.fst).Nodup :=
      hkeys.sublist ((regErase_sublist r tid).map Prod.fst)
    have hin' : ∀ tid' ∈ rest, ∃ info',
        assocFind (regErase r tid) tid' = some info' ∧
        info'.is_temporary = true := by
      intro tid' h'
      have hne : tid' ≠ tid := fun heq => hhead (heq ▸ h')
      rw [assocFind_regErase_ne r tid tid' hne]
      exact hin tid' (by simp [h'])
    rw [List.foldl_cons, hstep, ih _ _ _ hkeys' htail hin']
    simp only [Prod.mk.injEq]
    refine ⟨?_, ?_, ?_⟩
    · rw [regErase_eq_filter r tid hkeys, List.filter_filter]
      apply List.filter_congr
      intro e _
      by_cases hh : e.1 = tid
      · simp [List.contains_cons, Bool.not_or, hh]
      · simp [List.contains_cons, Bool.not_or, hh]
    · have hpaths : rest.filterMap
          (fun tid' => (assocFind (regErase r tid) tid').map
            (fun i => i.workspace_path)) =
          rest.filterMap (fun tid' => (assocFind r tid').map
            (fun i => i.workspace_path)) := by
        apply List.filterMap_congr
        intro tid' h'
        have hne : tid' ≠ tid := fun heq => hhead (heq ▸ h')
        rw [assocFind_regErase_ne r tid tid' hne]
      rw [hpaths, List.filter_filter, List.filterMap_cons, hfind]
      apply List.filter_congr
      intro p _
      by_cases hh : p = info.workspace_path
      · simp [List.contains_cons, Bool.not_or, hh, bne]
      · simp [List.contains_cons, Bool.not_or, hh, bne]
    · simp only [List.length_cons]
      omega

/-- Looking up the ids of registry entries that are all found intact gives
back exactly their workspace paths. -/
theorem filterMap_assocFind_paths (reg : Registry) (l : Registry)
    (h : ∀ e ∈ l, assocFind reg e.1 = some e.2) :
    (l.map Prod.fst).filterMap (fun tid => (assocFind reg tid).map
      (fun i => i.workspace_path)) =
      l.map (fun e => e.2.workspace_path) := by
  induction l with
  | nil => rfl
  | cons e es ih =>
    have he := h e (by simp)
    rw [List.map_cons, List.filterMap_cons, he]
    simp [ih (fun e' he' => h e' (by simp [he']))]

/-- Claim C8: `cleanup_all_temporary_workspaces` removes the registry entry
and the directory of every temporary workspace, leaves every persistent
workspace's registry entry intact (and its directory, as long as no
temporary workspace shares its path), and returns the number of workspaces
removed. -/
theorem cleanup_all_temporary_spec (reg : Registry) (fs : List String)
    (hkeys : (reg.map Prod.fst).Nodup) :
    (cleanup_all_temporary_workspaces reg fs).1 =
      reg.filter (fun e => !e.2.is_temporary) ∧
    (cleanup_all_temporary_workspaces reg fs).2.2 =
      (reg.filter (fun e => e.2.is_temporary)).length ∧
    (cleanup_all_temporary_workspaces reg fs).2.1 =
      fs.filter (fun p => !(((reg.filter (fun e => e.2.is_temporary)).map
        (fun e => e.2.workspace_path)).contains p)) ∧
    (∀ e ∈ reg, e.2.is_temporary = true →
      assocFind (cleanup_all_temporary_workspaces reg fs).1 e.1 = none ∧
      e.2.workspace_path ∉ (cleanup_all_temporary_workspaces reg fs).2.1) ∧
    (∀ e ∈ reg, e.2.is_temporary = false →
      assocFind (cleanup_all_temporary_workspaces reg fs).1 e.1 = some e.2 ∧
      (e.2.workspace_path ∈ fs →
        (∀ e' ∈ reg, e'.2.is_temporary = true →
          e'.2.workspace_path ≠ e.2.workspace_path) →
        e.2.workspace_path ∈ (cleanup_all_temporary_workspaces reg fs).2.1)) := by
  have hinj := List.inj_on_of_nodup_map hkeys
  have hfindE : ∀ e ∈ reg.filter (fun e => e.2.is_temporary),
      assocFind reg e.1 = some e.2 := by
    intro e he
    exact assocFind_of_mem reg e.1 e.2 hkeys (List.mem_filter.1 he).1
  have hidsnd : ((reg.filter (fun e => e.2.is_temporary)).map Prod.fst).Nodup :=
    hkeys.sublist ((List.filter_sublist reg).map Prod.fst)
  have hin : ∀ tid ∈ (reg.filter (fun e => e.2.is_temporary)).map Prod.fst,
      ∃ info, assocFind reg tid = some info ∧ info.is_temporary = true := by
    intro tid htid
    obtain ⟨e, heF, heq⟩ := List.mem_map.1 htid
    exact ⟨e.2, heq ▸ hfindE e heF, (List.mem_filter.1 heF).2⟩
  have hmain := cleanup_fold_spec
    ((reg.filter (fun e => e.2.is_temporary)).map Prod.fst) reg fs 0
    hkeys hidsnd hin
  have hunfold : cleanup_all_temporary_workspaces reg fs =
      ((reg.filter (fun e => e.2.is_temporary)).map Prod.fst).foldl
        cleanup_step (reg, fs, 0) := rfl
  have hpaths := filterMap_assocFind_paths reg
    (reg.filter (fun e => e.2.is_temporary)) hfindE
  have h1 : (cleanup_all_temporary_workspaces reg fs).1 =
      reg.filter (fun e => !e.2.is_temporary) := by
    rw [hunfold, hmain]
    apply List.filter_congr
    intro e he
    by_cases het : e.2.is_temporary = true
    · have hmem : e.1 ∈ (reg.filter (fun e => e.2.is_temporary)).map Prod.fst :=
        List.mem_map.2 ⟨e, List.mem_filter.2 ⟨he, by simp [het]⟩, rfl⟩
      simp [het, hmem]
    · have hmem : e.1 ∉ (reg.filter (fun e => e.2.is_temporary)).map Prod.fst := by
        intro hmem
        obtain ⟨e', he'F, heq⟩ := List.mem_map.1 hmem
        obtain ⟨he'R, he't⟩ := List.mem_filter.1 he'F
        exact het (hinj he'R he heq ▸ he't)
      simp [het, hmem]
  have h2 : (cleanup_all_temporary_workspaces reg fs).2.2 =
      (reg.filter (fun e => e.2.is_temporary)).length := by
    rw [hunfold, hmain]
    simp
  have h3 : (cleanup_all_temporary_workspaces reg fs).2.1 =
      fs.filter (fun p => !(((reg.filter (fun e => e.2.is_temporary)).map
        (fun e => e.2.workspace_path)).contains p)) := by
    rw [hunfold, hmain, hpaths]
  refine ⟨h1, h2, h3, ?_, ?_⟩
  · intro e he het
    constructor
    · rw [h1]
      apply assocFind_eq_none
      intro e' he' heq
      obtain ⟨he'R, he'nt⟩ := List.mem_filter.1 he'
      rw [hinj he'R he heq] at he'nt
      simp [het] at he'nt
    · rw [h3]
      intro hmem
      have hpred := (List.mem_filter.1 hmem).2
      have hin' : e.2.workspace_path ∈
          (reg.filter (fun e => e.2.is_temporary)).map
            (fun e => e.2.workspace_path) :=
        List.mem_map.2 ⟨e, List.mem_filter.2 ⟨he, by simp [het]⟩, rfl⟩
      simp [hin'] at hpred
  · intro e he het
    constructor
    · rw [h1]
      apply assocFind_of_mem _ e.1 e.2
      · exact hkeys.sublist ((List.filter_sublist reg).map Prod.fst)
      · exact List.mem_filter.2 ⟨he, by simp [het]⟩
    · intro hfs hdisj
      rw [h3]
      apply List.mem_filter.2
      refine ⟨hfs, ?_⟩
      have hnot : e.2.workspace_path ∉
          (reg.filter (fun e => e.2.is_temporary)).map
            (fun e => e.2.workspace_path) := by
        intro hmem
        obtain ⟨e', he'F, heq⟩ := List.mem_map.1 hmem
        obtain ⟨he'R, he't⟩ := List.mem_filter.1 he'F
        exact hdisj e' he'R he't heq
      simp [hnot]

/-- Witness for C8 on a concrete registry of two temporary workspaces and
one persistent one: the persistent entry and directory stay, both temporary
ones go, and the count is 2. -/
theorem cleanup_all_temporary_spec_witness :
    (exReg.map Prod.fst).Nodup ∧
    (cleanup_all_temporary_workspaces exReg exFs).1 =
      exReg.filter (fun e => !e.2.is_temporary) ∧
    (cleanup_all_temporary_workspaces exReg exFs).2.2 =
      (exReg.filter (fun e => e.2.is_temporary)).length ∧
    (cleanup_all_temporary_workspaces exReg exFs).2.1 =
      exFs.filter (fun p => !(((exReg.filter
        (fun e => e.2.is_temporary)).map
        (fun e => e.2.workspace_path)).contains p)) :=
  ⟨by decide,
   (cleanup_all_temporary_spec exReg exFs (by decide)).1,
   (cleanup_all_temporary_spec exReg exFs (by decide)).2.1,
   (cleanup_all_temporary_spec exReg exFs (by decide)).2.2.1⟩

/-! ## Change detection (C9) -/

theorem mem_map_fst_filter {α : Type} (l : List (String × α))
    (f : String × α → Bool) (q : String) :
    q ∈ (l.filter f).map Prod.fst ↔ ∃ v, (q, v) ∈ l ∧ f (q, v) = true := by
  constructor
  · intro h
    obtain ⟨e, heF, heq⟩ := List.mem_map.1 h
    obtain ⟨heL, hef⟩ := List.mem_filter.1 heF
    refine ⟨e.2, ?_, ?_⟩
    · rw [← heq]
      exact heL
    · rw [← heq]
      exact hef
  · rintro ⟨v, hvl, hvf⟩
    exact List.mem_map.2 ⟨(q, v), List.mem_filter.2 ⟨hvl, hvf⟩, rfl⟩

/-- Claim C9: the changed-file list contains exactly the files absent from
the initial snapshot plus the files present in both whose modification time
strictly increased; deleted files never appear; identical snapshots give an
empty list; one added file gives exactly that file's path. -/
theorem detect_file_changes_spec (initial_files final_files : FileSnapshot)
    (p : String) (m : ℤ)
    (hi : (initial_files.map Prod.fst).Nodup)
    (hf : (final_files.map Prod.fst).Nodup)
    (hp : ∀ e ∈ initial_files, e.1 ≠ p) :
    (∀ q, q ∈ detect_file_changes initial_files final_files ↔
      ((assocFind final_files q).isSome ∧ assocFind initial_files q = none) ∨
      (∃ mi mf, assocFind initial_files q = some mi ∧
        assocFind final_files q = some mf ∧ mi < mf)) ∧
    (∀ q, assocFind final_files q = none →
      q ∉ detect_file_changes initial_files final_files) ∧
    detect_file_changes initial_files initial_files = [] ∧
    detect_file_changes initial_files (initial_files ++ [(p, m)]) = [p] := by
  have hiff : ∀ q, q ∈ detect_file_changes initial_files final_files ↔
      ((assocFind final_files q).isSome ∧ assocFind initial_files q = none) ∨
      (∃ mi mf, assocFind initial_files q = some mi ∧
        assocFind final_files q = some mf ∧ mi < mf) := by
    intro q
    unfold detect_file_changes
    rw [List.mem_append, mem_map_fst_filter, mem_map_fst_filter]
    constructor
    · rintro (⟨v, hvf, hvnone⟩ | ⟨v, hvi, hvlt⟩)
      · left
        have hsome := assocFind_of_mem final_files q v hf hvf
        refine ⟨by simp [hsome], by simpa using hvnone⟩
      · right
        have hmi := assocFind_of_mem initial_files q v hi hvi
        rcases hff : assocFind final_files q with _ | mf
        · simp [hff] at hvlt
        · simp only [hff] at hvlt
          exact ⟨v, mf, hmi, rfl, by simpa using hvlt⟩
    · rintro (⟨hsome, hnone⟩ | ⟨mi, mf, hmi, hmf, hlt⟩)
      · left
        obtain ⟨v, hv⟩ := Option.isSome_iff_exists.1 hsome
        exact ⟨v, mem_of_assocFind _ _ _ hv, by simp [hnone]⟩
      · right
        exact ⟨mi, mem_of_assocFind _ _ _ hmi, by simp [hmf, hlt]⟩
  refine ⟨hiff, ?_, ?_, ?_⟩
  · intro q hq hmem
    rcases (hiff q).1 hmem with ⟨hsome, _⟩ | ⟨mi, mf, _, hmf, _⟩
    · rw [hq] at hsome
      simp at hsome
    · rw [hq] at hmf
      simp at hmf
  · unfold detect_file_changes
    have hA : initial_files.filter
        (fun e => (assocFind initial_files e.1).isNone) = [] := by
      rw [List.filter_eq_nil_iff]
      intro e he
      simp [assocFind_of_mem initial_files e.1 e.2 hi he]
    have hB : initial_files.filter
        (fun e => match assocFind initial_files e.1 with
          | some mm => decide (e.2 < mm)
          | none => false) = [] := by
      rw [List.filter_eq_nil_iff]
      intro e he
      simp [assocFind_of_mem initial_files e.1 e.2 hi he]
    rw [hA, hB]
    rfl
  · unfold detect_file_changes
    have hfind : ∀ e ∈ initial_files,
        assocFind (initial_files ++ [(p, m)]) e.1 = some e.2 := by
      intro e he
      exact assocFind_append_of_some _ _ _ _
        (assocFind_of_mem initial_files e.1 e.2 hi he)
    have hA : (initial_files ++ [(p, m)]).filter
        (fun e => (assocFind initial_files e.1).isNone) = [(p, m)] := by
      rw [List.filter_append]
      have h1 : initial_files.filter
          (fun e => (assocFind initial_files e.1).isNone) = [] := by
        rw [List.filter_eq_nil_iff]
        intro e he
        simp [assocFind_of_mem initial_files e.1 e.2 hi he]
      have h2 : assocFind initial_files p = none :=
        assocFind_eq_none initial_files p hp
      rw [h1]
      simp [h2]
    have hB : initial_files.filter
        (fun e => match assocFind (initial_files ++ [(p, m)]) e.1 with
          | some mm => decide (e.2 < mm)
          | none => false) = [] := by
      rw [List.filter_eq_nil_iff]
      intro e he
      simp [hfind e he]
    rw [hA, hB]
    rfl

/-- Witness for C9 on concrete snapshots: initial snapshot `exSnap`, final
snapshot `exSnap` with one added file `src/new.py`. -/
theorem detect_file_changes_spec_witness :
    ((exSnap.map Prod.fst).Nodup ∧ (∀ e ∈ exSnap, e.1 ≠ "src/new.py")) ∧
    (detect_file_changes exSnap exSnap = [] ∧
     detect_file_changes exSnap (exSnap ++ [("src/new.py", 200)]) =
       ["src/new.py"]) :=
  ⟨⟨by decide, by decide⟩,
   (detect_file_changes_spec exSnap exSnap "src/new.py" 200
     (by decide) (by decide) (by decide)).2.2.1,
   (detect_file_changes_spec exSnap exSnap "src/new.py" 200
     (by decide) (by decide) (by decide)).2.2.2⟩

end TaskScheduler
